import Mathlib

/-!
Verification of the behavioral core of the `orbis-landing` single-page app
(`src/App.tsx`): the scroll-reveal visibility tracker (`useOnScreen`), the
demo-request submission flow (`validateEmail`, `sendEmail`, `handleSubmit`,
the `disabled={isSending}` double-submit guard of `DemoModal`), and the
toast notification lifecycle (`Toast` / `App.showToast`).

Numbers, strings and lists are modelled directly; the asynchronous pieces
(the awaited mock send, the toast timer, the intersection-observer
callbacks) are modelled as explicit event traces processed by step
functions, reflecting the single-threaded event-loop semantics of the
source.
-/

namespace Orbis

/-! ## Substring search (JS `String.prototype.includes`)

`sendEmail` tests `data.email.includes("fail")`.  We embed `includes` as an
executable substring scan over the character list and relate it to
Mathlib's `List.IsInfix`. -/

/-- Executable prefix test on character lists. -/
def charsPre : List Char → List Char → Bool
  | [], _ => true
  | _ :: _, [] => false
  | a :: as, b :: bs => a == b && charsPre as bs

/-- Executable substring test: does `pat` occur contiguously in the list?
This is the semantics of JS `String.prototype.includes`. -/
def charsSub (pat : List Char) : List Char → Bool
  | [] => charsPre pat []
  | c :: rest => charsPre pat (c :: rest) || charsSub pat rest

/-- `s.includes(pat)` from `src/App.tsx` line 101. -/
def strIncludes (s pat : String) : Bool :=
  charsSub pat.toList s.toList

theorem charsPre_iff (p l : List Char) : charsPre p l = true ↔ p <+: l := by
  induction p generalizing l with
  | nil => simp [charsPre]
  | cons a as ih =>
    cases l with
    | nil => simp [charsPre]
    | cons b bs =>
      simp [charsPre, ih, List.cons_prefix_cons, Bool.and_eq_true, beq_iff_eq]

theorem charsSub_iff (p l : List Char) : charsSub p l = true ↔ p <:+: l := by
  induction l with
  | nil => simp [charsSub, charsPre_iff]
  | cons c rest ih =>
    simp [charsSub, Bool.or_eq_true, charsPre_iff, ih, List.infix_cons_iff]

theorem strIncludes_iff (s pat : String) :
    strIncludes s pat = true ↔ pat.toList <:+: s.toList :=
  charsSub_iff _ _

/-! ## The demo-request form data and the mock transport -/

/-- The form state of `DemoModal` (`src/App.tsx` line 83):
`{ name: '', email: '', organization: '', message: '' }`. -/
structure FormData where
  name : String
  email : String
  organization : String
  message : String
deriving DecidableEq, Repr

/-- The value resolved by the mock `sendEmail`
(`{ success: boolean, message: string }`). -/
structure SendResult where
  success : Bool
  message : String
deriving DecidableEq, Repr

/-- The mock transport `sendEmail` (`src/App.tsx` lines 96-105), minus the
artificial delay: fails iff the raw email contains the substring `"fail"`
(case-sensitive, as JS `includes` is). -/
def sendEmail (data : FormData) : SendResult :=
  if strIncludes data.email "fail" then
    ⟨false, "Failed to send. Please try again."⟩
  else
    ⟨true, "Successful, we'll get back to you soon!"⟩

/-! ## Email validation

`validateEmail` (`src/App.tsx` lines 90-93) tests the lowercased email
against the regex

  `^(([^<>()[\]\\.,;:\s@"]+(\.[^<>()[\]\\.,;:\s@"]+)*)|(".+"))@`
  `((\[[0-9]{1,3}\.[0-9]{1,3}\.[0-9]{1,3}\.[0-9]{1,3}\])|(([a-zA-Z\-0-9]+\.)+[a-zA-Z]{2,}))$`

The embedding below translates the anchored regex structurally: the whole
string must decompose as `local ++ "@" ++ domain` where `local` is either a
dot-separated sequence of atoms or a quoted string, and `domain` is either
a bracketed IPv4 literal or a dotted hostname ending in an alphabetic TLD
of length at least 2. -/

/-- A character allowed in an (unquoted) local-part atom:
anything except `<>()[]\.,;:@"` and whitespace (the regex class
`[^<>()[\]\\.,;:\s@"]`; JS `\s` also covers some Unicode spaces, which do
not occur in any input considered here). -/
def isAtomChar (c : Char) : Bool :=
  !(c ∈ ['<', '>', '(', ')', '[', ']', '\\', '.', ',', ';', ':', '@', '"']
      || c.isWhitespace)

/-- One-or-more atom characters (`[^...]+`). -/
def isAtom (l : List Char) : Bool :=
  !l.isEmpty && l.all isAtomChar

/-- The unquoted local part `atom ("." atom)*`: splitting on `'.'` must
yield only non-empty atoms (so no leading, trailing or doubled dots). -/
def localAtomSeq (l : List Char) : Bool :=
  (l.splitOn '.').all isAtom

/-- A character matched by the regex metacharacter `.`
(anything but a line terminator). -/
def isRegexAnyChar (c : Char) : Bool :=
  !(c ∈ ['\n', '\r', '\u2028', '\u2029'])

/-- The quoted local part `".+"`: a double quote, at least one
non-line-terminator character, a double quote. -/
def isQuoted (l : List Char) : Bool :=
  decide (3 ≤ l.length) && l.head? == some '"' && l.getLast? == some '"'
    && ((l.drop 1).dropLast.all isRegexAnyChar)

/-- The local part of the regex: dot-atom sequence or quoted string. -/
def localMatch (l : List Char) : Bool :=
  localAtomSeq l || isQuoted l

/-- A hostname-label character (`[a-zA-Z\-0-9]`). -/
def isLabelChar (c : Char) : Bool :=
  c.isAlpha || c.isDigit || c == '-'

/-- A non-empty hostname label (`[a-zA-Z\-0-9]+`). -/
def isLabel (l : List Char) : Bool :=
  !l.isEmpty && l.all isLabelChar

/-- A top-level domain: at least two alphabetic characters
(`[a-zA-Z]{2,}`). -/
def isTld (l : List Char) : Bool :=
  decide (2 ≤ l.length) && l.all Char.isAlpha

/-- The dotted hostname alternative `(([a-zA-Z\-0-9]+\.)+[a-zA-Z]{2,})`:
at least one label, a final TLD, separated by single dots. -/
def hostMatch (l : List Char) : Bool :=
  let parts := l.splitOn '.'
  decide (2 ≤ parts.length) && parts.dropLast.all isLabel
    && parts.getLast?.elim false isTld

/-- One to three digits (`[0-9]{1,3}`). -/
def isOctet (l : List Char) : Bool :=
  decide (1 ≤ l.length) && decide (l.length ≤ 3) && l.all Char.isDigit

/-- The bracketed IPv4 alternative
`\[[0-9]{1,3}\.[0-9]{1,3}\.[0-9]{1,3}\.[0-9]{1,3}\]`. -/
def ipMatch (l : List Char) : Bool :=
  decide (2 ≤ l.length) && l.head? == some '[' && l.getLast? == some ']'
    && (let parts := ((l.drop 1).dropLast).splitOn '.'
        parts.length == 4 && parts.all isOctet)

/-- The domain part of the regex: IPv4 literal or dotted hostname. -/
def domainMatch (l : List Char) : Bool :=
  ipMatch l || hostMatch l

/-- The full anchored regex: some split at an `'@'` whose left part matches
the local grammar and whose right part matches the domain grammar. -/
def emailRegexMatch (l : List Char) : Bool :=
  (List.range l.length).any fun i =>
    l[i]? == some '@' && localMatch (l.take i) && domainMatch (l.drop (i + 1))

/-- `validateEmail` (`src/App.tsx` lines 90-93):
`re.test(String(email).toLowerCase())`.  JS `toLowerCase` is modelled as
per-character lowercasing. -/
def validateEmail (email : String) : Bool :=
  emailRegexMatch (email.toList.map Char.toLower)

/-! ## The submission handler

`handleSubmit` (`src/App.tsx` lines 107-129) validates, invokes the mock
transport, and reports through the notification sink (`showToast`) and the
dialog-close signal (`onClose`).  We record its externally visible effects:
the toasts emitted in order, the number of `sendEmail` invocations, the
number of `onClose` invocations, and the form fields afterwards
(`handleSubmit` never writes `formData`, so the fields are preserved). -/

/-- The toast kind: `'success' | 'error'`. -/
inductive ToastKind where
  | success
  | error
deriving DecidableEq, Repr

/-- The externally visible effects of one `handleSubmit` run. -/
structure SubmitEffects where
  toasts : List (ToastKind × String)
  sendCalls : Nat
  closeCalls : Nat
  finalForm : FormData
deriving DecidableEq, Repr

/-- `handleSubmit` (`src/App.tsx` lines 107-129).  JS string truthiness:
`!name` is true exactly when `name` is the empty string. -/
def handleSubmit (fd : FormData) : SubmitEffects :=
  if fd.name = "" ∨ fd.email = "" ∨ fd.organization = "" then
    ⟨[(ToastKind.error, "Please fill in all required fields.")], 0, 0, fd⟩
  else if validateEmail fd.email = false then
    ⟨[(ToastKind.error, "Please enter a valid email address.")], 0, 0, fd⟩
  else
    let result := sendEmail fd
    if result.success = true then
      ⟨[(ToastKind.success, result.message)], 1, 1, fd⟩
    else
      ⟨[(ToastKind.error, result.message)], 1, 0, fd⟩

/-! ## The submission flow as a trace machine

To reason about re-entrancy (the double-submit guard) we run `DemoModal`
as a state machine over user/event-loop events.  The submit affordance is
the form's only submit button, rendered with `disabled={isSending}`
(`src/App.tsx` lines 141-143); clicking a disabled button — or implicitly
submitting a form whose default button is disabled — dispatches nothing,
so a `submitClick` event is a no-op while `isSending` holds.  `resolveSend`
is the event-loop completion of the awaited `sendEmail` promise. -/

/-- The `DemoModal` state plus the externally visible effect counters:
`formData` and `isSending` are the two `useState` cells; `pending` is the
in-flight `sendEmail` promise's value, if any. -/
structure ModalState where
  formData : FormData
  isSending : Bool
  pending : Option SendResult
  toasts : List (ToastKind × String)
  sendCount : Nat
  closeCount : Nat
deriving DecidableEq, Repr

/-- The modal as freshly opened on form `fd`:
`isSending = false`, nothing in flight, no effects yet. -/
def initModal (fd : FormData) : ModalState :=
  ⟨fd, false, none, [], 0, 0⟩

/-- Events delivered to the modal by the UI event loop. -/
inductive ModalEvent where
  | submitClick
  | resolveSend
deriving DecidableEq, Repr

/-- One step of the modal.  `submitClick` runs `handleSubmit` up to its
suspension point (the `await sendEmail`); it does nothing while
`isSending`, because the submit button is `disabled={isSending}`.
`resolveSend` resumes `handleSubmit` after the await: clears `isSending`
and reports the outcome (`src/App.tsx` lines 119-128). -/
def modalStep (s : ModalState) (e : ModalEvent) : ModalState :=
  match e with
  | ModalEvent.submitClick =>
    if s.isSending = true then s
    else if s.formData.name = "" ∨ s.formData.email = "" ∨
        s.formData.organization = "" then
      { s with toasts :=
          s.toasts ++ [(ToastKind.error, "Please fill in all required fields.")] }
    else if validateEmail s.formData.email = false then
      { s with toasts :=
          s.toasts ++ [(ToastKind.error, "Please enter a valid email address.")] }
    else
      { s with isSending := true, pending := some (sendEmail s.formData),
               sendCount := s.sendCount + 1 }
  | ModalEvent.resolveSend =>
    match s.pending with
    | none => s
    | some r =>
      if r.success = true then
        { s with isSending := false, pending := none,
                 toasts := s.toasts ++ [(ToastKind.success, r.message)],
                 closeCount := s.closeCount + 1 }
      else
        { s with isSending := false, pending := none,
                 toasts := s.toasts ++ [(ToastKind.error, r.message)] }

/-- Run the modal over a list of events. -/
def modalRun (s : ModalState) : List ModalEvent → ModalState
  | [] => s
  | e :: es => modalRun (modalStep s e) es

/-! ## The toast notification lifecycle

`App` holds at most one toast (`useState<... | null>`, `src/App.tsx` lines
683-687) and renders it as `{toast && <Toast ... onClose={() =>
setToast(null)} />}` (line 738).  `Toast` (lines 65-71) arms a 5000 ms
`setTimeout(onClose)` and clears it in the effect cleanup.  Because the
`onClose` prop is a fresh closure on every `App` render, showing a new
toast re-runs the effect: the previous timer is cleared and a fresh
5000 ms timer is armed.  We model the shell state as `Option (toast,
deadline)`: `showToast` at time `t` replaces the current toast and re-arms
the deadline to `t + 5000`; the toast is visible at a query time `q`
exactly while `q` precedes the deadline. -/

/-- A notification as held by the `App` shell. -/
structure ToastMsg where
  kind : ToastKind
  text : String
deriving DecidableEq, Repr

/-- `showToast` at time `t`: replace whatever toast is showing (its pending
dismiss timer is cleared by the `Toast` effect cleanup) and arm a fresh
auto-dismiss timer for `t + 5000`. -/
def showToastAt (_s : Option (ToastMsg × Nat)) (t : Nat) (m : ToastMsg) :
    Option (ToastMsg × Nat) :=
  some (m, t + 5000)

/-- The shell state after a chronological sequence of `showToast` calls,
each tagged with its time. -/
def toastState (shows : List (Nat × ToastMsg)) : Option (ToastMsg × Nat) :=
  shows.foldl (fun s tm => showToastAt s tm.1 tm.2) none

/-- The toast visible at query time `q` (taken at or after the last show):
the current toast until its auto-dismiss deadline fires, nothing after. -/
def visibleAt (shows : List (Nat × ToastMsg)) (q : Nat) : Option ToastMsg :=
  match toastState shows with
  | none => none
  | some (m, d) => if q < d then some m else none

/-! ## The visibility tracker

`useOnScreen` (`src/App.tsx` lines 5-34) keeps a boolean `isIntersecting`
state, initially `false`.  The `IntersectionObserver`, configured with the
given `threshold`, delivers an entry whenever the observed fraction of the
element crosses the threshold; on the first entry with
`entry.isIntersecting` the hook sets the state to `true` and calls
`observer.unobserve`, so no later entry can change the state again.  We
model an observation run as a fold over the sequence of visible fractions
the observer reports: an entry is intersecting exactly when its fraction
reaches the threshold. -/

/-- One observer callback: once `true` the state is frozen (the element was
unobserved); otherwise the state becomes `true` exactly when the reported
fraction `f` reaches the threshold. -/
def useOnScreenStep (threshold : ℚ) (s : Bool) (f : ℚ) : Bool :=
  if s = true then true
  else if threshold ≤ f then true
  else false

/-- The hook's state after a sequence of observed fractions, starting from
the initial `useState(false)`. -/
def useOnScreenRun (threshold : ℚ) (fs : List ℚ) : Bool :=
  fs.foldl (useOnScreenStep threshold) false

/-- Concrete forms used by the witness theorems. -/
def okForm : FormData := ⟨"Ada", "test@ok.com", "Orbis", ""⟩

def failForm : FormData := ⟨"Ada", "test@fail.com", "Orbis", ""⟩

def mixedCaseForm : FormData := ⟨"Ada", "user@FAIL.com", "Orbis", ""⟩

/-- The modal right after a first valid submission, still awaiting the mock
transport (`isSending` holds). -/
def sendingState : ModalState :=
  modalStep (initModal okForm) ModalEvent.submitClick

/-- Concrete toasts used by the witness theorems. -/
def toastA : ToastMsg := ⟨ToastKind.error, "first"⟩

def toastB : ToastMsg := ⟨ToastKind.success, "second"⟩

/-! ## Supporting lemmas -/

theorem useOnScreenStep_eq (t : ℚ) (s : Bool) (f : ℚ) :
    useOnScreenStep t s f = (s || decide (t ≤ f)) := by
  cases s <;> simp [useOnScreenStep]

theorem useOnScreenRun_foldl (t : ℚ) (fs : List ℚ) (b : Bool) :
    fs.foldl (useOnScreenStep t) b = (b || fs.any fun f => decide (t ≤ f)) := by
  induction fs generalizing b with
  | nil => simp
  | cons f fs ih =>
    simp [List.foldl_cons, useOnScreenStep_eq, ih, Bool.or_assoc]

theorem toastState_append (prior : List (Nat × ToastMsg)) (t₀ : Nat)
    (m : ToastMsg) :
    toastState (prior ++ [(t₀, m)]) = some (m, t₀ + 5000) := by
  simp [toastState, List.foldl_append, showToastAt]

/-! ## The claims -/

/-- C1: while a delivery call is in flight (`isSending` holds), a further
submit trigger is a no-op — the submit button is disabled — so triggering
submit twice in rapid succession from a freshly opened modal with a valid
form invokes the mock transport exactly once. -/
theorem double_submit_guard (s : ModalState) (hs : s.isSending = true)
    (fd : FormData)
    (hfd : ¬(fd.name = "" ∨ fd.email = "" ∨ fd.organization = ""))
    (hv : validateEmail fd.email = true) :
    modalStep s ModalEvent.submitClick = s ∧
    (modalRun (initModal fd)
      [ModalEvent.submitClick, ModalEvent.submitClick,
        ModalEvent.resolveSend]).sendCount = 1 := by
  constructor
  · simp [modalStep, hs]
  · have e1 : modalStep (initModal fd) ModalEvent.submitClick =
        ⟨fd, true, some (sendEmail fd), [], 1, 0⟩ := by
      simp only [modalStep, initModal]
      rw [if_neg (by simp), if_neg hfd, if_neg (by simp [hv])]
    have e2 : modalStep (⟨fd, true, some (sendEmail fd), [], 1, 0⟩ : ModalState)
        ModalEvent.submitClick = ⟨fd, true, some (sendEmail fd), [], 1, 0⟩ := by
      simp [modalStep]
    show (modalStep (modalStep (modalStep (initModal fd) ModalEvent.submitClick)
        ModalEvent.submitClick) ModalEvent.resolveSend).sendCount = 1
    rw [e1, e2]
    cases h : (sendEmail fd).success <;> simp [modalStep, h]

theorem double_submit_guard_witness :
    modalStep sendingState ModalEvent.submitClick = sendingState ∧
    (modalRun (initModal okForm)
      [ModalEvent.submitClick, ModalEvent.submitClick,
        ModalEvent.resolveSend]).sendCount = 1 :=
  double_submit_guard sendingState (by decide) okForm (by decide) (by decide)

/-- C2: the mock transport fails, with the fixed failure message, exactly
when the raw email contains the substring `"fail"`; on every other input
it succeeds with the fixed success message. -/
theorem sendEmail_spec (data : FormData) :
    (("fail".toList <:+: data.email.toList) →
      sendEmail data = ⟨false, "Failed to send. Please try again."⟩) ∧
    (¬("fail".toList <:+: data.email.toList) →
      sendEmail data = ⟨true, "Successful, we'll get back to you soon!"⟩) := by
  constructor
  · intro h
    rw [sendEmail, if_pos ((strIncludes_iff _ _).mpr h)]
  · intro h
    rw [sendEmail, if_neg (fun hc => h ((strIncludes_iff _ _).mp hc))]

theorem sendEmail_spec_witness :
    sendEmail failForm = ⟨false, "Failed to send. Please try again."⟩ ∧
    sendEmail okForm = ⟨true, "Successful, we'll get back to you soon!"⟩ :=
  ⟨(sendEmail_spec failForm).1 (by decide),
    (sendEmail_spec okForm).2 (by decide)⟩

/-- C3: submitting with any of `name`, `email`, `organization` empty emits
exactly the missing-fields error toast and never invokes the transport. -/
theorem missing_fields (fd : FormData)
    (h : fd.name = "" ∨ fd.email = "" ∨ fd.organization = "") :
    handleSubmit fd =
      ⟨[(ToastKind.error, "Please fill in all required fields.")], 0, 0, fd⟩ := by
  rw [handleSubmit, if_pos h]

theorem missing_fields_witness :
    handleSubmit ⟨"", "test@ok.com", "Orbis", ""⟩ =
      ⟨[(ToastKind.error, "Please fill in all required fields.")], 0, 0,
        ⟨"", "test@ok.com", "Orbis", ""⟩⟩ :=
  missing_fields ⟨"", "test@ok.com", "Orbis", ""⟩ (Or.inl rfl)

/-- C4: submitting with all required fields present but an email rejected
by the address grammar emits exactly the invalid-email error toast and
never invokes the transport. -/
theorem invalid_email (fd : FormData)
    (h1 : ¬(fd.name = "" ∨ fd.email = "" ∨ fd.organization = ""))
    (h2 : validateEmail fd.email = false) :
    handleSubmit fd =
      ⟨[(ToastKind.error, "Please enter a valid email address.")], 0, 0, fd⟩ := by
  rw [handleSubmit, if_neg h1, if_pos h2]

theorem invalid_email_witness :
    handleSubmit ⟨"Ada", "bad-address", "Orbis", ""⟩ =
      ⟨[(ToastKind.error, "Please enter a valid email address.")], 0, 0,
        ⟨"Ada", "bad-address", "Orbis", ""⟩⟩ :=
  invalid_email ⟨"Ada", "bad-address", "Orbis", ""⟩ (by decide) (by decide)

/-- C5: when a required field is empty AND the email is invalid, the
missing-fields toast is the one emitted (the empty-field check runs
first), and the transport is not invoked. -/
theorem missing_fields_precedence (fd : FormData)
    (h1 : fd.name = "" ∨ fd.email = "" ∨ fd.organization = "")
    (h2 : validateEmail fd.email = false) :
    (handleSubmit fd).toasts =
      [(ToastKind.error, "Please fill in all required fields.")] ∧
    (handleSubmit fd).sendCalls = 0 := by
  rw [handleSubmit, if_pos h1]
  exact ⟨rfl, rfl⟩

theorem missing_fields_precedence_witness :
    (handleSubmit ⟨"", "bad-address", "Orbis", ""⟩).toasts =
      [(ToastKind.error, "Please fill in all required fields.")] ∧
    (handleSubmit ⟨"", "bad-address", "Orbis", ""⟩).sendCalls = 0 :=
  missing_fields_precedence ⟨"", "bad-address", "Orbis", ""⟩ (Or.inl rfl)
    (by decide)

/-- C6: a valid submission whose delivery succeeds emits exactly one
success toast carrying the transport's message and fires the dialog-close
signal exactly once. -/
theorem submit_success (fd : FormData)
    (h1 : ¬(fd.name = "" ∨ fd.email = "" ∨ fd.organization = ""))
    (h2 : validateEmail fd.email = true)
    (h3 : (sendEmail fd).success = true) :
    handleSubmit fd =
      ⟨[(ToastKind.success, (sendEmail fd).message)], 1, 1, fd⟩ := by
  rw [handleSubmit, if_neg h1, if_neg (by simp [h2])]
  show (if (sendEmail fd).success = true then _ else _) = _
  rw [if_pos h3]

theorem submit_success_witness :
    handleSubmit okForm =
      ⟨[(ToastKind.success, (sendEmail okForm).message)], 1, 1, okForm⟩ :=
  submit_success okForm (by decide) (by decide) (by decide)

/-- C7: a valid submission whose delivery fails emits an error toast with
the transport's failure message, does not fire the dialog-close signal,
and leaves all four form fields exactly as submitted. -/
theorem submit_failure (fd : FormData)
    (h1 : ¬(fd.name = "" ∨ fd.email = "" ∨ fd.organization = ""))
    (h2 : validateEmail fd.email = true)
    (h3 : (sendEmail fd).success = false) :
    handleSubmit fd =
      ⟨[(ToastKind.error, (sendEmail fd).message)], 1, 0, fd⟩ := by
  rw [handleSubmit, if_neg h1, if_neg (by simp [h2])]
  show (if (sendEmail fd).success = true then _ else _) = _
  rw [if_neg (by simp [h3])]

theorem submit_failure_witness :
    handleSubmit failForm =
      ⟨[(ToastKind.error, (sendEmail failForm).message)], 1, 0, failForm⟩ :=
  submit_failure failForm (by decide) (by decide) (by decide)

/-- C8: for any threshold in `[0,1]`, the tracker's signal starts `false`,
is `true` after a run of observations exactly when some observed fraction
reached the threshold, and once `true` stays `true` under any further
observations. -/
theorem useOnScreen_signal (t : ℚ) (ht0 : 0 ≤ t) (ht1 : t ≤ 1)
    (fs gs : List ℚ) :
    useOnScreenRun t [] = false ∧
    (useOnScreenRun t fs = true ↔ ∃ f ∈ fs, t ≤ f) ∧
    (useOnScreenRun t fs = true → useOnScreenRun t (fs ++ gs) = true) := by
  refine ⟨rfl, ?_, ?_⟩
  · simp [useOnScreenRun, useOnScreenRun_foldl]
  · intro h
    simp only [useOnScreenRun, useOnScreenRun_foldl, Bool.false_or,
      List.any_append, Bool.or_eq_true] at h ⊢
    exact Or.inl h

theorem useOnScreen_signal_witness :
    useOnScreenRun (1/10) [] = false ∧
    (useOnScreenRun (1/10) [0, 1/5] = true ↔
      ∃ f ∈ [(0 : ℚ), 1/5], (1 : ℚ)/10 ≤ f) ∧
    (useOnScreenRun (1/10) [0, 1/5] = true →
      useOnScreenRun (1/10) ([0, 1/5] ++ [0]) = true) :=
  useOnScreen_signal (1/10) (by norm_num) (by norm_num) [0, 1/5] [0]

/-- C9: at most one toast is ever visible; after a chronological sequence
of shows ending with a toast shown at `t₀`, that toast is visible at a
later query time `q` exactly while `q < t₀ + 5000` — so it is
auto-dismissed exactly 5000 ms after it was shown, and any earlier toast's
pending dismiss timer was cancelled by the replacement rather than firing
against the new toast. -/
theorem toast_lifecycle (shows : List (Nat × ToastMsg)) (qq : Nat)
    (prior : List (Nat × ToastMsg)) (t₀ q : Nat) (m : ToastMsg)
    (hq : t₀ ≤ q) :
    (visibleAt shows qq).toList.length ≤ 1 ∧
    visibleAt (prior ++ [(t₀, m)]) q =
      (if q < t₀ + 5000 then some m else none) := by
  constructor
  · cases h : visibleAt shows qq <;> simp
  · rw [visibleAt, toastState_append]

theorem toast_lifecycle_witness :
    visibleAt ([(0, toastA)] ++ [(1000, toastB)]) 5500 =
      (if 5500 < 1000 + 5000 then some toastB else none) ∧
    visibleAt ([(0, toastA)] ++ [(1000, toastB)]) 6000 =
      (if 6000 < 1000 + 5000 then some toastB else none) :=
  ⟨(toast_lifecycle [] 0 [(0, toastA)] 1000 5500 toastB (by decide)).2,
    (toast_lifecycle [] 0 [(0, toastA)] 1000 6000 toastB (by decide)).2⟩

/-- C10: the transport's failure test is case-sensitive while validation
lowercases: a submission whose fields are present, whose email passes
validation, whose lowercased email contains `"fail"` but whose raw email
does not (e.g. `"user@FAIL.com"`) is delivered successfully. -/
theorem case_sensitive_fail_check (fd : FormData)
    (h1 : ¬(fd.name = "" ∨ fd.email = "" ∨ fd.organization = ""))
    (h2 : validateEmail fd.email = true)
    (h3 : charsSub "fail".toList (fd.email.toList.map Char.toLower) = true)
    (h4 : strIncludes fd.email "fail" = false) :
    (sendEmail fd).success = true ∧
    handleSubmit fd =
      ⟨[(ToastKind.success, "Successful, we'll get back to you soon!")],
        1, 1, fd⟩ := by
  have hs : sendEmail fd = ⟨true, "Successful, we'll get back to you soon!"⟩ := by
    rw [sendEmail, if_neg (by simp [h4])]
  refine ⟨by rw [hs], ?_⟩
  rw [handleSubmit, if_neg h1, if_neg (by simp [h2])]
  show (if (sendEmail fd).success = true then _ else _) = _
  rw [if_pos (by rw [hs]), hs]

theorem case_sensitive_fail_check_witness :
    (sendEmail mixedCaseForm).success = true ∧
    handleSubmit mixedCaseForm =
      ⟨[(ToastKind.success, "Successful, we'll get back to you soon!")],
        1, 1, mixedCaseForm⟩ :=
  case_sensitive_fail_check mixedCaseForm (by decide) (by decide) (by decide)
    (by decide)

end Orbis
